import Mathlib

/-!
Verification of the cerebro telemetry hub (sdss/cerebro).

Shallow embedding of the parts of the code the claims are about:
* `cerebro/cerebro.py` — `Cerebro.on_next`, `Cerebro.update_time_offset`,
  `SourceList.add_source`, `SourceList._start_source`, the status callback;
* `cerebro/protocols.py` — `ReconnectingTCPClientProtocol`;
* `cerebro/sources/source.py` — `Source.__init__` tag handling and
  `Source.timeout`.

Python dictionaries whose only observable use is key lookup are modelled as
functions `String → Option String`; the supervisor's name registry, whose
identity/replacement behaviour matters, is modelled as an association list
with Python-dict update semantics (replace in place, else append).
Floating point quantities (clock readings, offsets, delays) are modelled as
exact rationals.
-/

namespace Cerebro

/-- A Python dict used only through lookups: total map from keys to optional
values. -/
abbrev Dict := String → Option String

/-- Python `base.update(upd)` observed through lookups: a key present in
`upd` takes the value from `upd`, otherwise the value from `base`. -/
def dictUpdate (base upd : Dict) : Dict :=
  fun k =>
    match upd k with
    | some v => some v
    | none => base k

/-- Python `d.copy()`: a fresh dict with the same entries. -/
def dictCopy (d : Dict) : Dict :=
  fun k => d k

/-- Python `int(x)` on a real number: truncation toward zero. -/
def pythonInt (q : ℚ) : ℤ :=
  if 0 ≤ q then ⌊q⌋ else ⌈q⌉

/-- A measurement dictionary as processed by `Cerebro.on_next`
(cerebro.py lines 404-412): an optional `time` entry (nanoseconds since the
Unix epoch once assigned), a `tags` sub-dictionary, and a measurement name
standing for the rest of the payload, which `on_next` does not touch. -/
structure Point where
  name : String
  tags : Dict
  time : Option ℤ

/-- The timestamp computed once per batch in `Cerebro.on_next`
(cerebro.py line 407): `meas_time = int((time.time() + self._offset / 1e3) * 1e9)`.
`now` is the value returned by `time.time()` (seconds since the Unix epoch) and
`offset` is the stored value `self._offset`. -/
def measTime (offset now : ℚ) : ℤ :=
  pythonInt ((now + offset / 1000) * 1000000000)

/-- The loop body of `Cerebro.on_next` (cerebro.py lines 408-412): a point
lacking a `time` key gets `meas_time`; then `point["tags"].update(self.tags)`
merges the hub tags into the point's tags, hub values winning on collision. -/
def processPoint (hubTags : Dict) (meas_time : ℤ) (p : Point) : Point :=
  { p with
      time :=
        match p.time with
        | none => some meas_time
        | some t => some t
      tags := dictUpdate p.tags hubTags }

/-- `Cerebro.on_next` (cerebro.py lines 404-415). `none` models the early
`return` on an empty batch (no propagation); `some out` models
`Subject.on_next(self, data)` delivering the processed points to every
observer. `hubTags` is `self.tags`, `offset` is `self._offset`, `now` is the
single `time.time()` reading made at publish time. -/
def on_next (hubTags : Dict) (offset now : ℚ) (data : List Point) :
    Option (List Point) :=
  if data.isEmpty then none
  else some (data.map (processPoint hubTags (measTime offset now)))

/-- Convenience accessor: the `time` entries of the points a call to
`on_next` delivers, or `none` when nothing is delivered. -/
def publishedTimes (hubTags : Dict) (offset now : ℚ) (data : List Point) :
    Option (List (Option ℤ)) :=
  (on_next hubTags offset now data).map (fun out => out.map Point.time)

/-- Follows the spec's words, for comparison with `measTime`: the assigned
time equals `now() + clock_offset` at publish time, expressed as an integer
number of nanoseconds since the Unix epoch. -/
def specAssignedTime (offset now : ℚ) : ℤ :=
  pythonInt ((now + offset) * 1000000000)

/-- An NTP exchange as seen by `ntplib`: originate, receive and transmit
timestamps plus the destination timestamp. `orig` and `dest` are local-clock
readings; `recv` and `tx` are reference-clock readings. -/
structure NTPPacket where
  orig : ℚ
  recv : ℚ
  tx : ℚ
  dest : ℚ

/-- The ntplib `offset` statistic: the reference-minus-local clock
difference, `((recv - orig) + (tx - dest)) / 2`, sign-aware. -/
def ntpOffset (p : NTPPacket) : ℚ :=
  ((p.recv - p.orig) + (p.tx - p.dest)) / 2

/-- The ntplib `delay` statistic: the round-trip delay
`(dest - orig) - (tx - recv)`. -/
def ntpDelay (p : NTPPacket) : ℚ :=
  (p.dest - p.orig) - (p.tx - p.recv)

/-- The success path of `Cerebro.update_time_offset` (cerebro.py lines
420-424): `offset = ntp.request(server, version=3).delay`; the value is
stored in `self._offset` only when truthy (nonzero), otherwise the previous
offset is kept. Returns the new `self._offset`. -/
def update_time_offset (prev_offset : ℚ) (p : NTPPacket) : ℚ :=
  let offset := ntpDelay p
  if offset ≠ 0 then offset else prev_offset

/-- Association-list dict with Python-dict assignment semantics, used where
entry replacement is observable: `d[k] = v` replaces the value in place when
the key exists (keeping its position), else appends the pair at the end. -/
def alistSet {α : Type} (d : List (String × α)) (k : String) (v : α) :
    List (String × α) :=
  match d with
  | [] => [(k, v)]
  | kv :: rest => if kv.1 = k then (k, v) :: rest else kv :: alistSet rest k v

/-- Association-list lookup, `d[k]` / `d.get(k)`. -/
def alistGet {α : Type} (d : List (String × α)) (k : String) : Option α :=
  (d.find? (fun kv => kv.1 = k)).map Prod.snd

/-- A `Source` as the supervisor sees it (sources/source.py): a name, an
instance identity `sid` (distinguishing two source objects with the same
name), the `running` flag, and the class attribute `timeout`. -/
structure Src where
  name : String
  sid : ℕ
  running : Bool
  timeout : Option ℚ
deriving DecidableEq

/-- The default of the class attribute `Source.timeout`
(sources/source.py line 80): `timeout: float | None = None`. -/
def source_timeout_default : Option ℚ := none

/-- The state of a `SourceList` (cerebro.py): the underlying `list` contents
and the `_name_to_source` dict. -/
structure SourceListState where
  sources : List Src
  name_to_source : List (String × Src)
deriving DecidableEq

/-- The outcome of one `SourceList.add_source` call: the new state, and the
start tasks created by the call (`asyncio.create_task(self._start_source ...)`). -/
structure AddResult where
  state : SourceListState
  started_tasks : List Src
deriving DecidableEq

/-- `SourceList.add_source` (cerebro.py lines 89-104). The `isinstance`
check is discharged by typing (`src : Src`) and `subscribe` has no effect on
the registry; the call never examines whether `src.name` is already
registered: it overwrites `self._name_to_source[source.name]`, appends to
the list, and starts a `_start_source` task. -/
def add_source (s : SourceListState) (src : Src) : AddResult :=
  { state :=
      { sources := s.sources ++ [src]
        name_to_source := alistSet s.name_to_source src.name src }
    started_tasks := [src] }

/-- `SourceList._start_source` (cerebro.py lines 106-118) observed through
the source's `running` flag. `start_dur` is the time `source.start()` needs
to complete. With `timeout = None`, `asyncio.wait_for` waits indefinitely
and the base `Source.start` sets `running = True`; with a finite timeout a
longer start raises `asyncio.TimeoutError`, caught by the handler that sets
`source.running = False`. -/
def start_source (src : Src) (timeout : Option ℚ) (start_dur : ℚ) : Src :=
  match timeout with
  | none => { src with running := true }
  | some t => if t < start_dur then { src with running := false }
              else { src with running := true }

/-- The `status` reply of `Cerebro.status_server_cb` (cerebro.py line 444):
`{source.name: source.running for source in self.sources}`. -/
def status (sources : List Src) : List (String × Bool) :=
  sources.map (fun s => (s.name, s.running))

/-- The tag handling of `Source.__init__` (sources/source.py lines 97-98):
`self.tags = tags.copy(); self.tags.update({"source": self.source_type})`.
Returns the caller's dict as it stands after the call (left untouched thanks
to the copy) paired with the constructed `self.tags`. -/
def source_init_tags (source_type : String) (tags : Dict) : Dict × Dict :=
  let self_tags :=
    dictUpdate (dictCopy tags)
      (fun k => if k = "source" then some source_type else none)
  (tags, self_tags)

/-- Concrete hub tags for the tag-collision scenario: the hub defines
`run_id = "B"`. -/
def hubTagsW : Dict := fun k => if k = "run_id" then some "B" else none

/-- Concrete measurement carrying the colliding source tag `run_id = "A"`. -/
def pointW : Point :=
  { name := "temp"
    tags := fun k => if k = "run_id" then some "A" else none
    time := none }

/-- Concrete measurement with no tags and no `time` key. -/
def pointNoTime : Point := { name := "m", tags := fun _ => none, time := none }

/-- A hub with no instance tags. -/
def emptyTags : Dict := fun _ => none

/-- Two tagless, timeless measurements forming one batch. -/
def pointN1 : Point := { name := "a", tags := fun _ => none, time := none }

/-- Second measurement of the two-point batch. -/
def pointN2 : Point := { name := "b", tags := fun _ => none, time := none }

/-- The batch `[pointN1, pointN2]` as `on_next` delivers it. -/
def outW : List Point :=
  [pointN1, pointN2].map (processPoint emptyTags (measTime 2 5))

/-- Concrete NTP exchange in which the reference clock is half a second
behind the local clock (`offset = -1/2`) over a round trip of a tenth of a
second (`delay = 1/10`). -/
def ntpPacketW : NTPPacket := { orig := 0, recv := -9/20, tx := -7/20, dest := 1/5 }

/-- A registered source named `n`. -/
def srcA : Src := { name := "n", sid := 0, running := true, timeout := none }

/-- A second, distinct source also named `n`. -/
def srcB : Src := { name := "n", sid := 1, running := false, timeout := none }

/-- Supervisor state in which `srcA` is registered under the name `n`. -/
def stateA : SourceListState :=
  { sources := [srcA], name_to_source := [("n", srcA)] }

/-- A source for the start-timeout scenario. -/
def srcT : Src := { name := "slow", sid := 7, running := false, timeout := none }

/-- Concrete caller tag mapping supplying its own `source` entry and a
`host` entry. -/
def callerTags : Dict := fun k =>
  if k = "source" then some "caller"
  else if k = "host" then some "h1" else none

end Cerebro

namespace Protocols

/-- The mutable state of a `ReconnectingTCPClientProtocol`
(protocols.py lines 30-38): `_retries`, `_delay`, `_continue_trying`,
whether `_call_handle` holds a pending timer, whether `_connector` holds an
in-flight connect task, and `connected`. -/
structure RCState where
  retries : ℕ
  delay : ℚ
  continueTrying : Bool
  callHandle : Bool
  connector : Bool
  connected : Bool
deriving DecidableEq

/-- Class attribute `max_delay = 3600` (protocols.py line 24). -/
def max_delay : ℚ := 3600

/-- Class attribute `initial_delay = 1.0` (protocols.py line 25). -/
def initial_delay : ℚ := 1

/-- Class attribute `factor = 2.7182818284590451` (protocols.py line 26). -/
def factor : ℚ := 27182818284590451 / 10000000000000000

/-- Class attribute `jitter = 0.119626565582` (protocols.py line 27). -/
def jitter : ℚ := 119626565582 / 1000000000000

/-- Class attribute `max_retries = None` (protocols.py line 28). -/
def max_retries : Option ℕ := none

/-- The state built by `__init__` (protocols.py lines 30-38). -/
def initState : RCState :=
  { retries := 0
    delay := initial_delay
    continueTrying := true
    callHandle := false
    connector := false
    connected := false }

/-- `retry` (protocols.py lines 50-63), instrumented: the second component
records whether the call scheduled a connect attempt
(`call_later(self._delay, self.connect)`). `z` is the standard-normal draw
behind `random.normalvariate(mu, sigma) = mu + sigma * z`; the Gaussian
support is all of the reals, so `z` is an arbitrary rational. -/
def retryT (s : RCState) (z : ℚ) : RCState × Bool :=
  if s.continueTrying = false then (s, false)
  else
    let s1 := { s with retries := s.retries + 1 }
    if max_retries.any (fun m => decide (m < s1.retries)) then (s1, false)
    else
      let d1 := min (s1.delay * factor) max_delay
      let d2 := if jitter ≠ 0 then d1 + d1 * jitter * z else d1
      ({ s1 with delay := d2, callHandle := true }, true)

/-- `retry` (protocols.py lines 50-63): the state it leaves behind. -/
def retry (s : RCState) (z : ℚ) : RCState :=
  (retryT s z).1

/-- `connection_lost` (protocols.py lines 40-43), instrumented like
`retryT`. -/
def connection_lostT (s : RCState) (z : ℚ) : RCState × Bool :=
  let s1 := { s with connected := false }
  if s1.continueTrying then retryT s1 z else (s1, false)

/-- `connection_lost` (protocols.py lines 40-43): the resulting state. -/
def connection_lost (s : RCState) (z : ℚ) : RCState :=
  (connection_lostT s z).1

/-- `connection_failed` (protocols.py lines 45-48), instrumented like
`retryT`. -/
def connection_failedT (s : RCState) (z : ℚ) : RCState × Bool :=
  let s1 := { s with connected := false }
  if s1.continueTrying then retryT s1 z else (s1, false)

/-- `connection_failed` (protocols.py lines 45-48): the resulting state. -/
def connection_failed (s : RCState) (z : ℚ) : RCState :=
  (connection_failedT s z).1

/-- `connect` (protocols.py lines 65-67): starts a `_connect` task unless
one is already in flight. -/
def rc_connect (s : RCState) : RCState :=
  if s.connector then s else { s with connector := true }

/-- The success path of `_connect` (protocols.py lines 69-80): on a
successful `create_connection`, set `connected = True`; the `finally` block
clears `_connector`. Nothing else in the method is touched. -/
def connect_success (s : RCState) : RCState :=
  { s with connected := true, connector := false }

/-- The failure path of `_connect` (protocols.py lines 69-80): the
`finally` block clears `_connector`, then the `call_soon`-scheduled
`connection_failed` runs. -/
def connect_attempt_failed (s : RCState) (z : ℚ) : RCState :=
  connection_failed { s with connector := false } z

/-- `stop_trying` (protocols.py lines 82-90): cancels and clears the retry
timer and the in-flight connect task, clears `_continue_trying` and
`connected`. -/
def stop_trying (s : RCState) : RCState :=
  { s with
      callHandle := false
      continueTrying := false
      connector := false
      connected := false }

/-- The externally triggered events a live client can subsequently receive:
a scheduled retry firing, a connection loss, a connect failure, or another
`stop_trying` call. Each retry-capable event carries its Gaussian draw. -/
inductive RCEvent where
  | retryEv (z : ℚ)
  | lostEv (z : ℚ)
  | failedEv (z : ℚ)
  | stopEv
deriving DecidableEq

/-- One event applied to a state, with the flag recording whether the event
scheduled a connect attempt. -/
def applyEventT (s : RCState) : RCEvent → RCState × Bool
  | .retryEv z => retryT s z
  | .lostEv z => connection_lostT s z
  | .failedEv z => connection_failedT s z
  | .stopEv => (stop_trying s, false)

/-- Runs a sequence of events; the flag records whether any event in the
sequence scheduled a connect attempt. -/
def runEvents (s : RCState) (evs : List RCEvent) : RCState × Bool :=
  evs.foldl
    (fun acc e =>
      let r := applyEventT acc.1 e
      (r.1, acc.2 || r.2))
    (s, false)

end Protocols

namespace Cerebro

theorem pythonInt_intCast (n : ℤ) : pythonInt (n : ℚ) = n := by
  unfold pythonInt
  split <;> simp

theorem alistGet_alistSet {α : Type} (d : List (String × α)) (k : String)
    (v : α) : alistGet (alistSet d k v) k = some v := by
  induction d with
  | nil => simp [alistSet, alistGet]
  | cons kv rest ih =>
    by_cases h : kv.1 = k
    · simp [alistSet, alistGet, h]
    · simpa [alistSet, alistGet, List.find?, h] using ih

/-- C4: for every published batch and every tag key on which a
measurement's tags collide with the hub's instance tags, the value
delivered to the observers is the hub tag's value. -/
theorem C4_hub_tags_win (hubTags : Dict) (offset now : ℚ) (data : List Point)
    (i : ℕ) (hi : i < data.length) (k v w : String)
    (hhub : hubTags k = some v) (hsrc : (data[i]).tags k = some w) :
    ∃ out, on_next hubTags offset now data = some out ∧
      ∃ ho : i < out.length, (out[i]).tags k = some v := by
  have hne : data.isEmpty = false := by
    cases data with
    | nil => simp at hi
    | cons a l => rfl
  refine ⟨data.map (processPoint hubTags (measTime offset now)),
    by simp [on_next, hne], ⟨by simpa using hi, ?_⟩⟩
  simp [List.getElem_map, processPoint, dictUpdate, hhub]

/-- Witness for C4 at the spec's own scenario: source tag `run_id = "A"`,
hub tag `run_id = "B"`; the delivered value is `"B"`. -/
theorem C4_witness :
    ∃ out, on_next hubTagsW 0 0 [pointW] = some out ∧
      ∃ ho : 0 < out.length, (out[0]).tags "run_id" = some "B" :=
  C4_hub_tags_win hubTagsW 0 0 [pointW] 0 (by decide) "run_id" "B" "A"
    (by decide) (by decide)

/-- C1 fails as stated: with stored offset `1` and `now = 0`, `on_next`
assigns `10^6` ns (it divides the stored offset by `1000`), while
`now() + clock_offset` in nanoseconds is `10^9`. -/
theorem C1_counterexample :
    publishedTimes emptyTags 1 0 [pointNoTime] = some [some 1000000] ∧
    specAssignedTime 1 0 = 1000000000 ∧
    publishedTimes emptyTags 1 0 [pointNoTime] ≠
      some [some (specAssignedTime 1 0)] := by
  have h1 : measTime 1 0 = 1000000 := by
    have he : ((0 : ℚ) + 1 / 1000) * 1000000000 = ((1000000 : ℤ) : ℚ) := by
      norm_num
    rw [measTime, he, pythonInt_intCast]
  have h2 : specAssignedTime 1 0 = 1000000000 := by
    have he : ((0 : ℚ) + 1) * 1000000000 = ((1000000000 : ℤ) : ℚ) := by
      norm_num
    rw [specAssignedTime, he, pythonInt_intCast]
  refine ⟨?_, h2, ?_⟩
  · simp [publishedTimes, on_next, pointNoTime, processPoint, h1]
  · simp [publishedTimes, on_next, pointNoTime, processPoint, h1, h2]

/-- C1 amended: for every measurement of a published batch that lacks a
`time` key, `on_next` assigns `int((now() + clock_offset / 1000) * 10^9)`,
an integer number of nanoseconds since the Unix epoch — the code divides
the stored offset by 1000 before adding it to `time.time()`. -/
theorem C1_amended_time (hubTags : Dict) (offset now : ℚ) (data : List Point)
    (i : ℕ) (hi : i < data.length) (ht : (data[i]).time = none) :
    ∃ out, on_next hubTags offset now data = some out ∧
      ∃ ho : i < out.length,
        (out[i]).time = some (pythonInt ((now + offset / 1000) * 1000000000)) := by
  have hne : data.isEmpty = false := by
    cases data with
    | nil => simp at hi
    | cons a l => rfl
  refine ⟨data.map (processPoint hubTags (measTime offset now)),
    by simp [on_next, hne], ⟨by simpa using hi, ?_⟩⟩
  simp [List.getElem_map, processPoint, ht, measTime]

/-- Witness for C1 amended at offset `1`, now `0`, one timeless point. -/
theorem C1_witness :
    ∃ out, on_next emptyTags 1 0 [pointNoTime] = some out ∧
      ∃ ho : 0 < out.length,
        (out[0]).time = some (pythonInt ((0 + 1 / 1000) * 1000000000)) :=
  C1_amended_time emptyTags 1 0 [pointNoTime] 0 (by decide) (by decide)

/-- C9: all measurements of one published batch that lack a `time` key
receive the identical timestamp `measTime`, computed once per batch. -/
theorem C9_one_timestamp (hubTags : Dict) (offset now : ℚ)
    (data out : List Point) (hout : on_next hubTags offset now data = some out)
    (i j : ℕ) (hi : i < data.length) (hj : j < data.length)
    (hti : (data[i]).time = none) (htj : (data[j]).time = none) :
    ∃ (hio : i < out.length) (hjo : j < out.length),
      (out[i]).time = (out[j]).time ∧
      (out[i]).time = some (measTime offset now) := by
  have hne : data.isEmpty = false := by
    cases data with
    | nil => simp at hi
    | cons a l => rfl
  have hout2 : out = data.map (processPoint hubTags (measTime offset now)) := by
    simp [on_next, hne] at hout
    exact hout.symm
  subst hout2
  refine ⟨by simpa using hi, by simpa using hj, ?_, ?_⟩
  · simp [List.getElem_map, processPoint, hti, htj]
  · simp [List.getElem_map, processPoint, hti]

/-- Witness for C9: both points of a concrete two-point batch get the same
assigned time. -/
theorem C9_witness :
    ∃ (hio : 0 < outW.length) (hjo : 1 < outW.length),
      (outW[0]).time = (outW[1]).time ∧
      (outW[0]).time = some (measTime 2 5) :=
  C9_one_timestamp emptyTags 2 5 [pointN1, pointN2] outW rfl 0 1
    (by decide) (by decide) (by decide) (by decide)

/-- C2: the code stores the NTP round-trip delay, not the sign-aware clock
offset `reference_time - local_time`. On an exchange whose ntplib offset is
`-1/2` s and whose delay is `1/10` s, `update_time_offset` stores `1/10`. -/
theorem C2_stores_delay :
    update_time_offset 0 ntpPacketW = 1/10 ∧
    ntpOffset ntpPacketW = -(1/2) ∧
    update_time_offset 0 ntpPacketW ≠ ntpOffset ntpPacketW := by
  have hd : ntpDelay ntpPacketW = 1/10 := by
    norm_num [ntpDelay, ntpPacketW]
  have ho : ntpOffset ntpPacketW = -(1/2) := by
    norm_num [ntpOffset, ntpPacketW]
  have hu : update_time_offset 0 ntpPacketW = 1/10 := by
    rw [update_time_offset, hd]
    norm_num
  refine ⟨hu, ho, ?_⟩
  rw [hu, ho]
  norm_num

/-- C3 fails as stated: adding `srcB` while the name `n` is registered to
`srcA` raises no error (`add_source` is total), replaces the registry entry
for `n`, appends to the list, and starts a task for `srcB`. -/
theorem C3_counterexample :
    alistGet stateA.name_to_source "n" = some srcA ∧
    (add_source stateA srcB).state.name_to_source = [("n", srcB)] ∧
    (add_source stateA srcB).state.name_to_source ≠ stateA.name_to_source ∧
    (add_source stateA srcB).state.sources = [srcA, srcB] ∧
    (add_source stateA srcB).started_tasks = [srcB] := by
  refine ⟨?_, ?_, ?_, ?_, ?_⟩ <;> decide

/-- C3 amended: adding a source whose name is already registered succeeds
without error: the new source replaces the old one in the name registry,
is appended to the list (both instances remain), and a start task is
created for the new source. -/
theorem C3_amended (s : SourceListState) (src old : Src)
    (_hdup : alistGet s.name_to_source src.name = some old) :
    (add_source s src).state.sources = s.sources ++ [src] ∧
    alistGet (add_source s src).state.name_to_source src.name = some src ∧
    (add_source s src).started_tasks = [src] :=
  ⟨rfl, alistGet_alistSet s.name_to_source src.name src, rfl⟩

/-- Witness for C3 amended at the concrete duplicate-name state. -/
theorem C3_witness :
    (add_source stateA srcB).state.sources = stateA.sources ++ [srcB] ∧
    alistGet (add_source stateA srcB).state.name_to_source srcB.name = some srcB ∧
    (add_source stateA srcB).started_tasks = [srcB] :=
  C3_amended stateA srcB srcA (by decide)

/-- C8 fails as stated: the default start timeout is `None`, not 10
seconds; under the default a start taking `10^6` seconds still completes
and the source is never marked failed. -/
theorem C8_counterexample :
    source_timeout_default ≠ some 10 ∧
    (start_source srcT source_timeout_default 1000000).running = true := by
  refine ⟨?_, ?_⟩ <;> decide

/-- C8 amended: the default start timeout is `None` (no bound); when a
per-source timeout `t` is set and `start()` takes longer than `t`, the
source is marked failed: its `running` flag is false and the `status`
reply reports `running = false` for its name. -/
theorem C8_amended (src : Src) (t dur : ℚ) (h : t < dur) :
    source_timeout_default = none ∧
    (start_source src (some t) dur).running = false ∧
    alistGet (status [start_source src (some t) dur]) src.name = some false := by
  refine ⟨rfl, ?_, ?_⟩
  · simp [start_source, h]
  · simp [start_source, h, status, alistGet, List.find?]

/-- Witness for C8 amended: a 10-second timeout with an 11-second start. -/
theorem C8_witness :
    source_timeout_default = none ∧
    (start_source srcT (some 10) 11).running = false ∧
    alistGet (status [start_source srcT (some 10) 11]) srcT.name = some false :=
  C8_amended srcT 10 11 (by norm_num)

/-- C10: the tags built by `Source.__init__` are the caller's mapping with
the entry `source = source_type` added, the injected entry overriding any
caller-supplied `source` key on lookup, all other keys unchanged, and the
caller's mapping itself is returned untouched. -/
theorem C10_source_tag (source_type : String) (t : Dict) :
    (source_init_tags source_type t).2 "source" = some source_type ∧
    (∀ k, k ≠ "source" → (source_init_tags source_type t).2 k = t k) ∧
    (source_init_tags source_type t).1 = t := by
  refine ⟨?_, ?_, rfl⟩
  · simp [source_init_tags, dictUpdate]
  · intro k hk
    simp [source_init_tags, dictUpdate, dictCopy, hk]

/-- Witness for C10 with a caller mapping that supplies its own `source`
and `host` entries. -/
theorem C10_witness :
    (source_init_tags "tcp" callerTags).2 "source" = some "tcp" ∧
    (source_init_tags "tcp" callerTags).2 "host" = some "h1" ∧
    (source_init_tags "tcp" callerTags).1 = callerTags :=
  ⟨(C10_source_tag "tcp" callerTags).1,
   ((C10_source_tag "tcp" callerTags).2.1 "host" (by decide)).trans (by decide),
   (C10_source_tag "tcp" callerTags).2.2⟩

end Cerebro

namespace Protocols

theorem jitter_ne_zero : jitter ≠ 0 := by norm_num [jitter]

theorem one_le_factor : 1 ≤ factor := by norm_num [factor]

theorem factor_lt_max : factor < max_delay := by norm_num [factor, max_delay]

/-- C5 fails as stated: starting from the initial state, one failed attempt
followed by a successful one leaves `connected = true` but `retry_count = 1`
and `current_delay = factor ≠ initial_delay`; the success path of
`_connect` resets neither the retry count nor the delay. -/
theorem C5_counterexample :
    (connect_success (rc_connect (connect_attempt_failed
        (rc_connect initState) 0))).connected = true ∧
    (connect_success (rc_connect (connect_attempt_failed
        (rc_connect initState) 0))).retries = 1 ∧
    (1 : ℕ) ≠ 0 ∧
    (connect_success (rc_connect (connect_attempt_failed
        (rc_connect initState) 0))).delay ≠ initial_delay := by
  have hs : connect_attempt_failed (rc_connect initState) 0 =
      { retries := 1, delay := factor, continueTrying := true,
        callHandle := true, connector := false, connected := false } := by
    simp [connect_attempt_failed, rc_connect, initState, connection_failed,
      connection_failedT, retryT, max_retries, jitter_ne_zero, initial_delay,
      min_eq_left (le_of_lt factor_lt_max)]
  rw [hs]
  refine ⟨rfl, rfl, by norm_num, ?_⟩
  simp only [connect_success, rc_connect]
  norm_num [factor, initial_delay]

/-- C5 amended: whenever a connect attempt succeeds, the state satisfies
`connected = true` and the in-flight connector is cleared, while
`retry_count` and `current_delay` keep their prior values — the code never
resets them on success. -/
theorem C5_amended (s : RCState) :
    (connect_success s).connected = true ∧
    (connect_success s).connector = false ∧
    (connect_success s).retries = s.retries ∧
    (connect_success s).delay = s.delay ∧
    (connect_success s).continueTrying = s.continueTrying ∧
    (connect_success s).callHandle = s.callHandle :=
  ⟨rfl, rfl, rfl, rfl, rfl, rfl⟩

/-- C6 fails as stated: a single connection failure whose Gaussian draw is
`z = 100000` stores a `current_delay` above `max_delay` — the jitter is
unbounded and is applied after the `min` with `max_delay`. -/
theorem C6_counterexample :
    max_delay < (connection_failed initState 100000).delay := by
  have hs : (connection_failed initState 100000).delay =
      factor + factor * jitter * 100000 := by
    simp [connection_failed, connection_failedT, retryT, initState,
      max_retries, jitter_ne_zero, initial_delay,
      min_eq_left (le_of_lt factor_lt_max)]
  rw [hs]
  norm_num [factor, jitter, max_delay]

theorem connection_failed_zero_delay (s : RCState) (h0 : 0 ≤ s.delay)
    (hM : s.delay ≤ max_delay) :
    s.delay ≤ (connection_failed s 0).delay ∧
    0 ≤ (connection_failed s 0).delay ∧
    (connection_failed s 0).delay ≤ max_delay := by
  by_cases hc : s.continueTrying
  · have hd : (connection_failed s 0).delay = min (s.delay * factor) max_delay := by
      simp [connection_failed, connection_failedT, retryT, hc, max_retries,
        jitter_ne_zero]
    rw [hd]
    refine ⟨le_min ?_ hM, le_min ?_ (by norm_num [max_delay]), min_le_right _ _⟩
    · exact le_mul_of_one_le_right h0 one_le_factor
    · exact mul_nonneg h0 (le_trans zero_le_one one_le_factor)
  · have hd : (connection_failed s 0).delay = s.delay := by
      simp [connection_failed, connection_failedT, hc]
    rw [hd]
    exact ⟨le_refl _, h0, hM⟩

/-- C6 amended: across any number of consecutive connection failures whose
Gaussian draws equal their mean (`z = 0`), the sequence of `current_delay`
values is non-decreasing and bounded above by `max_delay`; with arbitrary
draws the stored delay is unbounded (see the counterexample). -/
theorem C6_amended (s : RCState) (h0 : 0 ≤ s.delay) (hM : s.delay ≤ max_delay)
    (n : ℕ) :
    ((fun st => connection_failed st 0)^[n] s).delay ≤
      ((fun st => connection_failed st 0)^[n + 1] s).delay ∧
    ((fun st => connection_failed st 0)^[n + 1] s).delay ≤ max_delay := by
  have hinv : ∀ m : ℕ, 0 ≤ ((fun st => connection_failed st 0)^[m] s).delay ∧
      ((fun st => connection_failed st 0)^[m] s).delay ≤ max_delay := by
    intro m
    induction m with
    | zero => exact ⟨h0, hM⟩
    | succ p ih =>
      rw [Function.iterate_succ_apply']
      exact ⟨(connection_failed_zero_delay _ ih.1 ih.2).2.1,
        (connection_failed_zero_delay _ ih.1 ih.2).2.2⟩
  rw [Function.iterate_succ_apply']
  exact ⟨(connection_failed_zero_delay _ (hinv n).1 (hinv n).2).1,
    (connection_failed_zero_delay _ (hinv n).1 (hinv n).2).2.2⟩

/-- Witness for C6 amended at the initial state and one failure. -/
theorem C6_witness :
    (0 : ℚ) ≤ initState.delay ∧ initState.delay ≤ max_delay ∧
    (((fun st => connection_failed st 0)^[0] initState).delay ≤
       ((fun st => connection_failed st 0)^[0 + 1] initState).delay ∧
     ((fun st => connection_failed st 0)^[0 + 1] initState).delay ≤ max_delay) :=
  ⟨by norm_num [initState, initial_delay],
   by norm_num [initState, initial_delay, max_delay],
   C6_amended initState (by norm_num [initState, initial_delay])
     (by norm_num [initState, initial_delay, max_delay]) 0⟩

theorem applyEventT_stopped (s : RCState) (h : s.continueTrying = false)
    (hch : s.callHandle = false) (hco : s.connector = false) (e : RCEvent) :
    (applyEventT s e).2 = false ∧
    (applyEventT s e).1.continueTrying = false ∧
    (applyEventT s e).1.callHandle = false ∧
    (applyEventT s e).1.connector = false := by
  cases e <;>
    simp [applyEventT, retryT, connection_lostT, connection_failedT,
      stop_trying, h, hch, hco]

theorem runEvents_stopped (evs : List RCEvent) (s : RCState)
    (h : s.continueTrying = false) (hch : s.callHandle = false)
    (hco : s.connector = false) :
    (runEvents s evs).2 = false ∧
    (runEvents s evs).1.continueTrying = false ∧
    (runEvents s evs).1.callHandle = false ∧
    (runEvents s evs).1.connector = false := by
  induction evs generalizing s with
  | nil => exact ⟨rfl, h, hch, hco⟩
  | cons e rest ih =>
    have hs := applyEventT_stopped s h hch hco e
    have hrun : runEvents s (e :: rest) = runEvents (applyEventT s e).1 rest := by
      simp [runEvents, hs.1]
    rw [hrun]
    exact ih _ hs.2.1 hs.2.2.1 hs.2.2.2

/-- C7: after `stop_trying`, `continue_trying` is false, the pending retry
timer and the in-flight attempt are cleared, and no subsequent sequence of
retry, connection-loss, connection-failure or further `stop_trying` events
ever schedules another connect attempt; `stop_trying` is idempotent. -/
theorem C7_stop_trying (s : RCState) (evs : List RCEvent) :
    (stop_trying s).continueTrying = false ∧
    (stop_trying s).callHandle = false ∧
    (stop_trying s).connector = false ∧
    (runEvents (stop_trying s) evs).2 = false ∧
    (runEvents (stop_trying s) evs).1.continueTrying = false ∧
    stop_trying (stop_trying s) = stop_trying s := by
  have h := runEvents_stopped evs (stop_trying s) rfl rfl rfl
  exact ⟨rfl, rfl, rfl, h.1, h.2.1, rfl⟩

end Protocols
